import Mathlib

/- Verification development for the bluehood presence-analytics engine.
   The definitions below are shallow embeddings of the Python source:
   `src/bluehood/classifier.py`, `src/bluehood/db.py` and `src/bluehood/web.py`.
   Timestamps are modelled as integer seconds, SQLite rows as Lean lists,
   and Python float arithmetic as exact rational arithmetic with Python
   round-half-to-even rounding. -/

namespace Bluehood

/-! ## Python rounding -/

/-- Round-half-to-even on rationals: the model of Python `round(x)` for a
float value `x` (exact at every input whose float computation is exact). -/
def rhe (x : ℚ) : ℤ :=
  if x - (⌊x⌋ : ℚ) < 1/2 then ⌊x⌋
  else if (1:ℚ)/2 < x - (⌊x⌋ : ℚ) then ⌊x⌋ + 1
  else if ⌊x⌋ % 2 = 0 then ⌊x⌋ else ⌊x⌋ + 1

/-- Model of Python `round(x, 1)`: round to one decimal place, ties to even. -/
def pyRound1 (x : ℚ) : ℚ := ((rhe (10 * x) : ℚ)) / 10

/-! ## Python truthiness -/

/-- Truthiness of an optional string in Python: `None` and the empty string
are falsy. -/
def pyTruthyStr : Option String → Bool
  | none => false
  | some s => !(s = "")

/-- Truthiness of an optional integer in Python: `None` and `0` are falsy. -/
def pyTruthyInt : Option Int → Bool
  | none => false
  | some n => !(n = 0)

/-- Truthiness of a list in Python: the empty list is falsy. -/
def pyTruthyList {α : Type} : List α → Bool
  | [] => false
  | _ :: _ => true

/-! ## String helpers (substring containment, lower-casing) -/

def listStarts : List Char → List Char → Bool
  | [], _ => true
  | _ :: _, [] => false
  | a :: as, b :: bs => a = b && listStarts as bs

def listHasSub (pat : List Char) : List Char → Bool
  | [] => pat.isEmpty
  | b :: bs => listStarts pat (b :: bs) || listHasSub pat bs

/-- Model of the Python expression `pat in hay` on strings. -/
def strContains (hay pat : String) : Bool := listHasSub pat.toList hay.toList

/-- Model of Python `str.lower()` (ASCII inputs). -/
def strLower (s : String) : String := String.mk (s.toList.map Char.toLower)

/-! ## Classifier (src/bluehood/classifier.py) -/

def TYPE_PHONE : String := "phone"
def TYPE_TABLET : String := "tablet"
def TYPE_LAPTOP : String := "laptop"
def TYPE_COMPUTER : String := "computer"
def TYPE_WATCH : String := "watch"
def TYPE_HEADPHONES : String := "audio"
def TYPE_SPEAKER : String := "speaker"
def TYPE_TV : String := "tv"
def TYPE_VEHICLE : String := "vehicle"
def TYPE_SMART_HOME : String := "smart"
def TYPE_WEARABLE : String := "wearable"
def TYPE_GAMING : String := "gaming"
def TYPE_CAMERA : String := "camera"
def TYPE_PRINTER : String := "printer"
def TYPE_NETWORK : String := "network"
def TYPE_UNKNOWN : String := "unknown"

/-- The ordered vendor-pattern table `VENDOR_PATTERNS` of classifier.py,
transcribed verbatim (pattern, device type); first match wins. -/
def VENDOR_PATTERNS : List (String × String) := [
  ("apple", TYPE_PHONE),
  ("samsung electronics", TYPE_PHONE),
  ("xiaomi", TYPE_PHONE),
  ("huawei", TYPE_PHONE),
  ("oneplus", TYPE_PHONE),
  ("oppo", TYPE_PHONE),
  ("vivo", TYPE_PHONE),
  ("realme", TYPE_PHONE),
  ("motorola", TYPE_PHONE),
  ("nokia", TYPE_PHONE),
  ("lg electronics", TYPE_PHONE),
  ("zte", TYPE_PHONE),
  ("google", TYPE_PHONE),
  ("fairphone", TYPE_PHONE),
  ("nothing", TYPE_PHONE),
  ("dell", TYPE_LAPTOP),
  ("lenovo", TYPE_LAPTOP),
  ("hewlett packard", TYPE_LAPTOP),
  ("hp inc", TYPE_LAPTOP),
  ("asus", TYPE_LAPTOP),
  ("acer", TYPE_LAPTOP),
  ("microsoft", TYPE_COMPUTER),
  ("intel corporate", TYPE_COMPUTER),
  ("gigabyte", TYPE_COMPUTER),
  ("msi", TYPE_COMPUTER),
  ("bose", TYPE_HEADPHONES),
  ("sony", TYPE_HEADPHONES),
  ("sennheiser", TYPE_HEADPHONES),
  ("jabra", TYPE_HEADPHONES),
  ("beats", TYPE_HEADPHONES),
  ("jbl", TYPE_SPEAKER),
  ("harman", TYPE_SPEAKER),
  ("bang & olufsen", TYPE_SPEAKER),
  ("sonos", TYPE_SPEAKER),
  ("skullcandy", TYPE_HEADPHONES),
  ("audio-technica", TYPE_HEADPHONES),
  ("plantronics", TYPE_HEADPHONES),
  ("anker", TYPE_HEADPHONES),
  ("fitbit", TYPE_WATCH),
  ("garmin", TYPE_WATCH),
  ("polar", TYPE_WATCH),
  ("suunto", TYPE_WATCH),
  ("whoop", TYPE_WEARABLE),
  ("oura", TYPE_WEARABLE),
  ("amazon", TYPE_SMART_HOME),
  ("ring", TYPE_SMART_HOME),
  ("nest", TYPE_SMART_HOME),
  ("philips", TYPE_SMART_HOME),
  ("ikea", TYPE_SMART_HOME),
  ("tuya", TYPE_SMART_HOME),
  ("shelly", TYPE_SMART_HOME),
  ("switchbot", TYPE_SMART_HOME),
  ("aqara", TYPE_SMART_HOME),
  ("wyze", TYPE_SMART_HOME),
  ("eufy", TYPE_SMART_HOME),
  ("ecobee", TYPE_SMART_HOME),
  ("hue", TYPE_SMART_HOME),
  ("smartthings", TYPE_SMART_HOME),
  ("tp-link", TYPE_SMART_HOME),
  ("meross", TYPE_SMART_HOME),
  ("govee", TYPE_SMART_HOME),
  ("lifx", TYPE_SMART_HOME),
  ("nanoleaf", TYPE_SMART_HOME),
  ("yale", TYPE_SMART_HOME),
  ("august", TYPE_SMART_HOME),
  ("schlage", TYPE_SMART_HOME),
  ("roku", TYPE_TV),
  ("vizio", TYPE_TV),
  ("tcl", TYPE_TV),
  ("hisense", TYPE_TV),
  ("chromecast", TYPE_TV),
  ("fire tv", TYPE_TV),
  ("tesla", TYPE_VEHICLE),
  ("ford", TYPE_VEHICLE),
  ("gm", TYPE_VEHICLE),
  ("volkswagen", TYPE_VEHICLE),
  ("bmw", TYPE_VEHICLE),
  ("mercedes", TYPE_VEHICLE),
  ("audi", TYPE_VEHICLE),
  ("toyota", TYPE_VEHICLE),
  ("honda", TYPE_VEHICLE),
  ("nissan", TYPE_VEHICLE),
  ("hyundai", TYPE_VEHICLE),
  ("kia", TYPE_VEHICLE),
  ("volvo", TYPE_VEHICLE),
  ("rivian", TYPE_VEHICLE),
  ("lucid", TYPE_VEHICLE),
  ("harley", TYPE_VEHICLE),
  ("continental auto", TYPE_VEHICLE),
  ("bosch", TYPE_VEHICLE),
  ("denso", TYPE_VEHICLE),
  ("nintendo", TYPE_GAMING),
  ("playstation", TYPE_GAMING),
  ("xbox", TYPE_GAMING),
  ("valve", TYPE_GAMING),
  ("razer", TYPE_GAMING),
  ("steelseries", TYPE_GAMING),
  ("logitech", TYPE_GAMING),
  ("gopro", TYPE_CAMERA),
  ("canon", TYPE_CAMERA),
  ("nikon", TYPE_CAMERA),
  ("dji", TYPE_CAMERA),
  ("insta360", TYPE_CAMERA),
  ("epson", TYPE_PRINTER),
  ("brother", TYPE_PRINTER),
  ("xerox", TYPE_PRINTER),
  ("cisco", TYPE_NETWORK),
  ("netgear", TYPE_NETWORK),
  ("ubiquiti", TYPE_NETWORK),
  ("aruba", TYPE_NETWORK),
  ("linksys", TYPE_NETWORK),
  ("asus router", TYPE_NETWORK),
  ("eero", TYPE_NETWORK),
  ("orbi", TYPE_NETWORK)]

/-- First vendor pattern (if any) that is a substring of the lower-cased
vendor string: the `for pattern, device_type in VENDOR_PATTERNS` loop. -/
def vendorMatch (vendorLower : String) : Option (String × String) :=
  VENDOR_PATTERNS.find? (fun p => strContains vendorLower p.1)

/-- The name-substring rules of classify_device, applied to the lower-cased
advertised name (the chain of `if any(x in name_lower ...)` tests). -/
def nameRules (nl : String) : String :=
  if ["iphone", "android", "pixel", "galaxy s", "galaxy z"].any (strContains nl) then TYPE_PHONE
  else if ["ipad", "tab", "tablet"].any (strContains nl) then TYPE_TABLET
  else if ["macbook", "thinkpad", "xps", "laptop"].any (strContains nl) then TYPE_LAPTOP
  else if ["imac", "mac mini", "mac pro", "desktop"].any (strContains nl) then TYPE_COMPUTER
  else if ["watch", "band", "mi band"].any (strContains nl) then TYPE_WATCH
  else if ["airpod", "buds", "earbuds", "headphone"].any (strContains nl) then TYPE_HEADPHONES
  else if ["homepod", "echo", "speaker"].any (strContains nl) then TYPE_SPEAKER
  else if ["tv", "roku", "firestick", "chromecast"].any (strContains nl) then TYPE_TV
  else if ["car", "vehicle", "model 3", "model y", "model s"].any (strContains nl) then TYPE_VEHICLE
  else TYPE_UNKNOWN

/-- Shallow embedding of `classify_device(vendor, name)` from classifier.py.
Note the source returns `TYPE_UNKNOWN` immediately when the vendor is falsy
(absent or empty), before the name is ever consulted. -/
def classify_device (vendor : Option String) (name : Option String) : String :=
  if !pyTruthyStr vendor then TYPE_UNKNOWN
  else
    match vendorMatch (strLower (vendor.getD (""))) with
    | some p => p.2
    | none =>
      if pyTruthyStr name then nameRules (strLower (name.getD ("")))
      else TYPE_UNKNOWN

/-! ## Lookback-window filter (the SQL clause `timestamp > datetime('now', '-N days')`)

Timestamps are integer seconds. For `days >= 0` the SQLite modifier string
`-{days} days` is valid and the cutoff is `now - days * 86400`. For a negative
`days` parameter the interpolated modifier (for example `--5 days`) is
malformed, `datetime()` evaluates to NULL, and the comparison is false for
every row, so the query returns no rows. -/

def windowFilter (now days : Int) (ts : List Int) : List Int :=
  if days < 0 then []
  else ts.filter (fun t => decide (now - days * 86400 < t))

/-! ## Dwell-time segmenter (src/bluehood/db.py, get_dwell_time) -/

/-- One reconstructed presence session: start and stop timestamps in seconds
and the rounded duration in minutes. -/
structure SessionR where
  start : Int
  stop : Int
  duration_minutes : ℚ
deriving DecidableEq, Repr

/-- The summary record returned by get_dwell_time. -/
structure DwellStats where
  total_minutes : ℚ
  session_count : Nat
  avg_session_minutes : ℚ
  longest_session_minutes : ℚ
  sessions : List SessionR
deriving DecidableEq, Repr

def emptyDwell : DwellStats := ⟨0, 0, 0, 0, []⟩

/-- The session-building scan of get_dwell_time: `s` and `e` are the running
session start and end; a gap strictly larger than the threshold (seconds)
closes the session; the final session is closed unconditionally. -/
def buildSessions (gapSeconds : Int) (s e : Int) : List Int → List (Int × Int)
  | [] => [(s, e)]
  | t :: ts =>
    if gapSeconds < t - e then (s, e) :: buildSessions gapSeconds t t ts
    else buildSessions gapSeconds s t ts

def listMaxQ : List ℚ → ℚ
  | [] => 0
  | q :: qs => qs.foldl max q

/-- The post-query part of get_dwell_time: session reconstruction and the
summary statistics, on the time-ordered timestamps returned by the query. -/
def dwellFromRows (gapSeconds : Int) (rows : List Int) : DwellStats :=
  match rows with
  | [] => emptyDwell
  | t :: ts =>
    let sess := (buildSessions gapSeconds t t ts).map
      (fun p => SessionR.mk p.1 p.2 (pyRound1 (((p.2 - p.1 : Int) : ℚ) / 60)))
    let total : ℚ := (sess.map (fun s => s.duration_minutes)).sum
    let longest : ℚ := if sess.isEmpty then 0 else listMaxQ (sess.map (fun s => s.duration_minutes))
    { total_minutes := pyRound1 total
      session_count := sess.length
      avg_session_minutes := if sess.isEmpty then 0 else pyRound1 (total / (sess.length : ℚ))
      longest_session_minutes := pyRound1 longest
      sessions := sess.drop (sess.length - 10) }

/-- Shallow embedding of `get_dwell_time(mac, days, gap_minutes)`: the query
filters the sightings of one device to the lookback window in ascending
order, after which the sessions are segmented with threshold
`gap_minutes * 60` seconds. `ts` is the full time-ordered sighting
timestamp list of the device. -/
def get_dwell_time (now days gapMinutes : Int) (ts : List Int) : DwellStats :=
  dwellFromRows (gapMinutes * 60) (windowFilter now days ts)

/-- Shallow embedding of the web handler `api_device_dwell`: it parses the
query parameters and calls get_dwell_time with no validation of the window,
so no error outcome exists for any integer `days`. -/
def api_device_dwell (now days gapMinutes : Int) (ts : List Int) :
    Except String DwellStats :=
  Except.ok (get_dwell_time now days gapMinutes ts)

/-! ## Proximity zones (src/bluehood/db.py, rssi_to_proximity_zone and
get_proximity_stats) -/

/-- Shallow embedding of `rssi_to_proximity_zone`. -/
def rssi_to_proximity_zone (rssi : Option Int) : String :=
  match rssi with
  | none => "unknown"
  | some r =>
    if -50 ≤ r then "immediate"
    else if -65 ≤ r then "near"
    else if -80 ≤ r then "far"
    else "remote"

/-- The result record of get_proximity_stats; the two zone dictionaries are
modelled as association lists in Python dict insertion order. -/
structure ProximityStats where
  zones : List (String × Nat)
  zones_percent : List (String × ℚ)
  total_readings : Nat
  dominant_zone : String
deriving Repr

/-- The initial zone-count dictionary `{"immediate": 0, "near": 0, "far": 0,
"remote": 0}`. -/
def zonesInit : List (String × Nat) :=
  [("immediate", 0), ("near", 0), ("far", 0), ("remote", 0)]

/-- `zones[zone] += 1` guarded by `if zone in zones`: increment the entry if
the key is present, otherwise leave the dictionary unchanged. -/
def bumpKey (k : String) : List (String × Nat) → List (String × Nat)
  | [] => []
  | p :: rest => if p.1 = k then (p.1, p.2 + 1) :: rest else p :: bumpKey k rest

/-- The zone-count loop of get_proximity_stats over the non-null readings. -/
def zonesFold (rs : List Int) : List (String × Nat) :=
  rs.foldl (fun z r => bumpKey (rssi_to_proximity_zone (some r)) z) zonesInit

/-- Python `max(zones.items(), key=lambda x: x[1])[0]` on a nonempty
association list: the key of the first entry holding the maximal count. -/
def firstMaxKey (p : String × Nat) : List (String × Nat) → String
  | [] => p.1
  | q :: rest => if p.2 < q.2 then firstMaxKey q rest else firstMaxKey p rest

/-- Shallow embedding of `get_proximity_stats`. The argument is the `rssi`
column of the device sightings inside the lookback window; the SQL query
keeps only rows with `rssi IS NOT NULL`. -/
def get_proximity_stats (rows : List (Option Int)) : ProximityStats :=
  let nn := rows.filterMap id
  let zones := zonesFold nn
  let total : Nat := (zones.map (fun p => p.2)).sum
  let zonesPct :=
    if 0 < total then zones.map (fun p => (p.1, pyRound1 ((p.2 : ℚ) / (total : ℚ) * 100)))
    else zones.map (fun p => (p.1, (0 : ℚ)))
  let dominant :=
    if 0 < total then
      match zones with
      | [] => "unknown"
      | q :: rest => firstMaxKey q rest
    else "unknown"
  { zones := zones
    zones_percent := zonesPct
    total_readings := total
    dominant_zone := dominant }

/-! ## Correlation engine (src/bluehood/db.py, get_correlated_devices) -/

/-- One row of the sightings table. -/
structure SightingRow where
  mac : String
  ts : Int
  rssi : Option Int
deriving DecidableEq, Repr

/-- One row of the devices table (the columns used by the engine). -/
structure DeviceRow where
  mac : String
  vendor : Option String
  friendly_name : Option String
  device_type : Option String
  ignored : Bool
  total_sightings : Nat
deriving DecidableEq, Repr

/-- One element of the list returned by get_correlated_devices. -/
structure CorrResult where
  mac : String
  vendor : Option String
  friendly_name : Option String
  device_type : Option String
  co_occurrences : Nat
  total_sightings : Nat
  correlation_score : ℤ
deriving DecidableEq, Repr

/-- `correlation = min(100, round((co_occurrences / target_count) * 100))`. -/
def correlationScore (co targetCount : Nat) : ℤ :=
  min 100 (rhe ((co : ℚ) / (targetCount : ℚ) * 100))

/-- Timestamps of the target device inside the lookback window (the first
query of get_correlated_devices). -/
def targetSightings (now days : Int) (mac : String) (ss : List SightingRow) :
    List Int :=
  if days < 0 then []
  else ((ss.filter (fun s => s.mac == mac && decide (now - days * 86400 < s.ts))).map
    (fun s => s.ts))

/-- Number of sighting pairs `(s1, s2)` with `s1` a target sighting in the
window and `s2` a sighting of mac `m` within `window_minutes` of it (the SQL
join with the symmetric BETWEEN condition, grouped on `m`). -/
def coCount (w : Int) (m : String) (targetTs : List Int) (ss : List SightingRow) :
    Nat :=
  (targetTs.map (fun t1 =>
    (ss.filter (fun s2 =>
      s2.mac == m && decide (t1 - w * 60 ≤ s2.ts) && decide (s2.ts ≤ t1 + w * 60))).length)).sum

/-- Descending insertion by co-occurrence count (the `ORDER BY co_occurrences
DESC`); earlier candidates stay first on ties. -/
def insCoDesc (x : String × DeviceRow × Nat) :
    List (String × DeviceRow × Nat) → List (String × DeviceRow × Nat)
  | [] => [x]
  | y :: ys => if y.2.2 < x.2.2 then x :: y :: ys else y :: insCoDesc x ys

def sortCoDesc : List (String × DeviceRow × Nat) → List (String × DeviceRow × Nat)
  | [] => []
  | x :: xs => insCoDesc x (sortCoDesc xs)

/-- The candidate groups of the SQL join of get_correlated_devices: the
other macs appearing in the sightings table that have a non-ignored device
row and at least 2 co-occurrences, with their device row and count. -/
def corrCandidates (now days w : Int) (mac : String) (ss : List SightingRow)
    (ds : List DeviceRow) : List (String × DeviceRow × Nat) :=
  ((ss.map (fun s => s.mac)).dedup.filter (fun m => m ≠ mac)).filterMap
    (fun m =>
      match ds.find? (fun d => d.mac == m) with
      | none => none
      | some d =>
        if d.ignored then none
        else
          let co := coCount w m (targetSightings now days mac ss) ss
          if 2 ≤ co then some (m, d, co) else none)

/-- Shallow embedding of `get_correlated_devices(mac, days, window_minutes)`:
empty result when the target has no sightings in the window, otherwise the
candidate groups ordered by descending count, at most 20 kept, each scored
by `correlationScore` against the target sighting count. -/
def get_correlated_devices (now days w : Int) (mac : String)
    (ss : List SightingRow) (ds : List DeviceRow) : List CorrResult :=
  let targetTs := targetSightings now days mac ss
  if targetTs.isEmpty then []
  else
    ((sortCoDesc (corrCandidates now days w mac ss ds)).take 20).map (fun x =>
      { mac := x.1
        vendor := x.2.1.vendor
        friendly_name := x.2.1.friendly_name
        device_type := x.2.1.device_type
        co_occurrences := x.2.2
        total_sightings := x.2.1.total_sightings
        correlation_score := correlationScore x.2.2 targetTs.length })

/-! ## Pattern summarizer (src/bluehood/web.py, _analyze_pattern) -/

/-- Python `dict.get(k, 0)` on an hour/day histogram. -/
def histGet (m : List (Nat × Nat)) (k : Nat) : Nat :=
  match m.find? (fun p => p.1 = k) with
  | some p => p.2
  | none => 0

/-- Sum of `histGet` over the hours `a, a+1, ..., b-1` (Python
`sum(h.get(i, 0) for i in range(a, b))`). -/
def histRangeSum (m : List (Nat × Nat)) (a b : Nat) : Nat :=
  ((List.range (b - a)).map (fun i => histGet m (a + i))).sum

/-- Python `max([...], key=lambda x: x[0])` over the quadrant list: first
entry holding the maximal count wins. -/
def firstMaxQuad (p : Nat × String) : List (Nat × String) → Nat × String
  | [] => p
  | q :: rest => if p.1 < q.1 then firstMaxQuad q rest else firstMaxQuad p rest

/-- Shallow embedding of the web handler helper `_analyze_pattern`. The two
histograms are hour-of-day and day-of-week counts; the result is the short
composite descriptor string. -/
def analyze_pattern (hourly daily : List (Nat × Nat)) (sighting_count : Nat) :
    String :=
  if sighting_count < 5 then "Insufficient data"
  else
    let avg : ℚ := (sighting_count : ℚ) / 30
    let freq :=
      if 5 ≤ avg then "Constant"
      else if 2 ≤ avg then "Very frequent"
      else if 1 ≤ avg then "Daily"
      else if 1/2 ≤ avg then "Regular"
      else if 3/20 ≤ avg then "Occasional"
      else "Rare"
    let parts1 := [freq]
    let parts2 :=
      if pyTruthyList hourly then
        let total := (hourly.map (fun p => p.2)).sum
        let morning := histRangeSum hourly 6 12
        let afternoon := histRangeSum hourly 12 18
        let evening := histRangeSum hourly 18 24
        let night := histRangeSum hourly 0 6
        if 0 < total then
          let dom := firstMaxQuad (morning, "mornings")
            [(afternoon, "afternoons"), (evening, "evenings"), (night, "nights")]
          if (1:ℚ)/2 < (dom.1 : ℚ) / (total : ℚ) then parts1 ++ [dom.2] else parts1
        else parts1
      else parts1
    let parts3 :=
      if pyTruthyList daily then
        let total := (daily.map (fun p => p.2)).sum
        let weekday := histRangeSum daily 0 5
        let weekend := histRangeSum daily 5 7
        if 0 < total then
          if (17:ℚ)/20 < (weekday : ℚ) / (total : ℚ) then parts2 ++ ["weekdays only"]
          else if (7:ℚ)/10 < (weekend : ℚ) / (total : ℚ) then parts2 ++ ["weekends only"]
          else parts2
        else parts2
      else parts2
    if pyTruthyList parts3 then String.intercalate (", ") parts3
    else "No clear pattern"

/-! ## Sighting store (src/bluehood/db.py, upsert_device and
cleanup_old_sightings) -/

/-- One row of the sightings table as written by upsert_device. -/
structure SightRec where
  mac : String
  ts : Int
  rssi : Option Int
deriving DecidableEq, Repr

/-- One row of the devices table (the rollup). -/
structure DeviceRec where
  mac : String
  vendor : Option String
  first_seen : Option Int
  last_seen : Option Int
  total_sightings : Nat
  service_uuids : List String
  bt_type : String
  device_class : Option Int
deriving DecidableEq, Repr

/-- The two tables touched by the record path. -/
structure StoreDB where
  devices : List DeviceRec
  sightings : List SightRec
deriving DecidableEq, Repr

def emptyStore : StoreDB := ⟨[], []⟩

/-- The arguments of one `upsert_device` call, together with the wall-clock
time `now` the call reads. -/
structure UpsertCall where
  now : Int
  mac : String
  vendor : Option String
  rssi : Option Int
  uuids : List String
  btType : String
  devClass : Option Int
deriving DecidableEq, Repr

/-- The UPDATE branch of upsert_device on the existing row: bump the counter,
advance last_seen, merge vendor / service_uuids / bt_type / device_class.
Vendor is overwritten only when the call carries a truthy vendor and the
stored one is falsy (NULL or empty); first_seen is never touched. -/
def updateDev (c : UpsertCall) (d : DeviceRec) : DeviceRec :=
  { d with
    last_seen := some c.now
    total_sightings := d.total_sightings + 1
    vendor :=
      if pyTruthyStr c.vendor && !pyTruthyStr d.vendor then c.vendor else d.vendor
    service_uuids :=
      if pyTruthyList c.uuids then (d.service_uuids ++ c.uuids).dedup
      else d.service_uuids
    bt_type :=
      if c.btType == "classic" && d.bt_type == "ble" then "both"
      else if c.btType == "ble" && d.bt_type == "classic" then "both"
      else d.bt_type
    device_class :=
      if pyTruthyInt c.devClass && !pyTruthyInt d.device_class then c.devClass
      else d.device_class }

/-- The INSERT branch of upsert_device: a fresh rollup row. -/
def newDev (c : UpsertCall) : DeviceRec :=
  { mac := c.mac
    vendor := c.vendor
    first_seen := some c.now
    last_seen := some c.now
    total_sightings := 1
    service_uuids := c.uuids
    bt_type := c.btType
    device_class := c.devClass }

/-- Shallow embedding of `upsert_device`: update or insert the rollup row
for `c.mac`, then append the new sighting row. -/
def upsertDB (c : UpsertCall) (db : StoreDB) : StoreDB :=
  if db.devices.any (fun d => d.mac == c.mac) then
    { devices := db.devices.map (fun d => if d.mac == c.mac then updateDev c d else d)
      sightings := db.sightings ++ [⟨c.mac, c.now, c.rssi⟩] }
  else
    { devices := db.devices ++ [newDev c]
      sightings := db.sightings ++ [⟨c.mac, c.now, c.rssi⟩] }

/-- Shallow embedding of `cleanup_old_sightings`: delete sightings older
than the cutoff; the devices table (the rollup) is not touched. A negative
`days` makes the SQLite datetime modifier malformed, so nothing matches. -/
def cleanupDB (now days : Int) (db : StoreDB) : StoreDB :=
  if days < 0 then db
  else { db with
    sightings := db.sightings.filter (fun s => !decide (s.ts < now - days * 86400)) }

def applyCalls (db : StoreDB) (cs : List UpsertCall) : StoreDB :=
  cs.foldl (fun d c => upsertDB c d) db

/-- Number of sighting rows stored for a mac. -/
def sCount (ss : List SightRec) (m : String) : Nat :=
  (ss.filter (fun s => s.mac == m)).length

def listMaxI : List Int → Option Int
  | [] => none
  | t :: ts =>
    match listMaxI ts with
    | none => some t
    | some u => some (max t u)

/-- Maximum sighting timestamp stored for a mac (none when no row exists). -/
def sMax (ss : List SightRec) (m : String) : Option Int :=
  listMaxI ((ss.filter (fun s => s.mac == m)).map (fun s => s.ts))

/-- The rollup invariant of the data model: each device row counts exactly
the stored sighting rows of its address and carries their maximal
timestamp as last_seen. -/
def rollupInv (db : StoreDB) : Prop :=
  ∀ d ∈ db.devices, d.total_sightings = sCount db.sightings d.mac ∧
    d.last_seen = sMax db.sightings d.mac

/-- Every stored sighting belongs to an address that has a device row. -/
def macsCovered (db : StoreDB) : Prop :=
  ∀ s ∈ db.sightings, ∃ d ∈ db.devices, d.mac = s.mac

instance (db : StoreDB) : Decidable (rollupInv db) := by
  unfold rollupInv; infer_instance

instance (db : StoreDB) : Decidable (macsCovered db) := by
  unfold macsCovered; infer_instance

/-! ## Concrete example data used by witnesses and counterexamples -/

/-- Target `t1` with ten sightings a thousand seconds apart; device `x1`
co-occurring with the first four of them. -/
def ssC4 : List SightingRow :=
  [⟨"t1", 0, none⟩, ⟨"t1", 1000, none⟩, ⟨"t1", 2000, none⟩, ⟨"t1", 3000, none⟩,
   ⟨"t1", 4000, none⟩, ⟨"t1", 5000, none⟩, ⟨"t1", 6000, none⟩, ⟨"t1", 7000, none⟩,
   ⟨"t1", 8000, none⟩, ⟨"t1", 9000, none⟩,
   ⟨"x1", 0, none⟩, ⟨"x1", 1000, none⟩, ⟨"x1", 2000, none⟩, ⟨"x1", 3000, none⟩]

def dsC4 : List DeviceRow := [⟨"x1", none, none, none, false, 14⟩]

def rC4 : CorrResult := ⟨"x1", none, none, none, 4, 14, 40⟩

def devC6 : DeviceRec := ⟨"aa", some ("Acme"), some 0, some 0, 1, [], "ble", none⟩

def dbC6 : StoreDB := ⟨[devC6], [⟨"aa", 0, none⟩]⟩

def cC6 : UpsertCall := ⟨5, "aa", some ("Other"), none, [], "ble", none⟩

/-- A first record call carrying the empty-string vendor. -/
def cEmptyVendor : UpsertCall := ⟨0, "aa", some (""), none, [], "ble", none⟩

/-- A later record call carrying a real vendor for the same address. -/
def cAcme : UpsertCall := ⟨1, "aa", some ("Acme"), none, [], "ble", none⟩

/-- Three chronological record calls: two for `aa`, one for `bb`. -/
def csC3 : List UpsertCall :=
  [⟨0, "aa", some ("Acme"), some (-50), [], "ble", none⟩,
   ⟨60, "aa", none, some (-60), [], "classic", some 7936⟩,
   ⟨120, "bb", none, none, ["u1"], "ble", none⟩]

/-- Sixteen non-null readings: one immediate, one near, one far, thirteen
remote, so the exact zone percentages are 6.25, 6.25, 6.25 and 81.25. -/
def rowsC7 : List (Option Int) :=
  [some (-45), some (-60), some (-75), some (-90), some (-90), some (-90),
   some (-90), some (-90), some (-90), some (-90), some (-90), some (-90),
   some (-90), some (-90), some (-90), some (-90)]

/-! ## Helper lemmas about the Python rounding model -/

theorem rhe_ge_floor (x : ℚ) : ⌊x⌋ ≤ rhe x := by
  unfold rhe
  split_ifs <;> omega

theorem rhe_le_floor_add_one (x : ℚ) : rhe x ≤ ⌊x⌋ + 1 := by
  unfold rhe
  split_ifs <;> omega

theorem rhe_err (x : ℚ) : -(1/2) ≤ (rhe x : ℚ) - x ∧ (rhe x : ℚ) - x ≤ 1/2 := by
  have h1 : (⌊x⌋ : ℚ) ≤ x := Int.floor_le x
  have h2 : x < (⌊x⌋ : ℚ) + 1 := Int.lt_floor_add_one x
  unfold rhe
  split_ifs with hf hg he
  · constructor <;> push_cast <;> linarith
  · constructor <;> push_cast <;> linarith
  · have hx : x - (⌊x⌋ : ℚ) = 1/2 := by linarith
    constructor <;> push_cast <;> linarith
  · have hx : x - (⌊x⌋ : ℚ) = 1/2 := by linarith
    constructor <;> push_cast <;> linarith

theorem rhe_nonneg {x : ℚ} (hx : 0 ≤ x) : 0 ≤ rhe x := by
  have h := rhe_ge_floor x
  have h0 : (0 : ℤ) ≤ ⌊x⌋ := Int.floor_nonneg.mpr hx
  omega

theorem rhe_mono {x y : ℚ} (hxy : x ≤ y) : rhe x ≤ rhe y := by
  have hfl : ⌊x⌋ ≤ ⌊y⌋ := Int.floor_mono hxy
  rcases lt_or_eq_of_le hfl with hlt | heq
  · have h1 := rhe_le_floor_add_one x
    have h2 := rhe_ge_floor y
    omega
  · have hx1 : (⌊x⌋ : ℚ) ≤ x := Int.floor_le x
    have hy1 : (⌊y⌋ : ℚ) ≤ y := Int.floor_le y
    unfold rhe
    rw [← heq]
    split_ifs with a b c d e f g h i j k
      <;> push_cast at * <;> try omega
    all_goals
      (exfalso; rw [← heq] at *; push_cast at *; linarith)

theorem pyRound1_err (x : ℚ) :
    -(1/20) ≤ pyRound1 x - x ∧ pyRound1 x - x ≤ 1/20 := by
  have h := rhe_err (10 * x)
  unfold pyRound1
  constructor <;> [skip; skip] <;> rcases h with ⟨h1, h2⟩ <;> linarith

theorem rhe_intCast (z : ℤ) : rhe ((z : ℚ)) = z := by
  unfold rhe
  rw [Int.floor_intCast]
  norm_num

theorem rhe_tie_even (z : ℤ) (hz : z % 2 = 0) : rhe ((z : ℚ) + 1/2) = z := by
  have hfl : ⌊(z : ℚ) + 1/2⌋ = z := by
    rw [Int.floor_eq_iff]
    constructor <;> push_cast <;> linarith
  unfold rhe
  rw [hfl]
  norm_num [hz]

theorem pyRound1_intMul (x : ℚ) (z : ℤ) (h : 10 * x = (z : ℚ)) :
    pyRound1 x = (z : ℚ) / 10 := by
  unfold pyRound1
  rw [h, rhe_intCast]

theorem pyRound1_tie_even (x : ℚ) (z : ℤ) (hz : z % 2 = 0)
    (h : 10 * x = (z : ℚ) + 1/2) : pyRound1 x = (z : ℚ) / 10 := by
  unfold pyRound1
  rw [h, rhe_tie_even z hz]

/-! ## Helper lemmas about the proximity zone fold -/

theorem bumpKey_zone (k : String) (a b c d : Nat)
    (hk : k = "immediate" ∨ k = "near" ∨ k = "far" ∨ k = "remote") :
    ∃ a2 b2 c2 d2 : Nat,
      bumpKey k [("immediate", a), ("near", b), ("far", c), ("remote", d)] =
        [("immediate", a2), ("near", b2), ("far", c2), ("remote", d2)] ∧
      a2 + b2 + c2 + d2 = a + b + c + d + 1 := by
  rcases hk with rfl | rfl | rfl | rfl
  · exact ⟨a + 1, b, c, d, by simp [bumpKey], by omega⟩
  · exact ⟨a, b + 1, c, d, by simp [bumpKey], by omega⟩
  · exact ⟨a, b, c + 1, d, by simp [bumpKey], by omega⟩
  · exact ⟨a, b, c, d + 1, by simp [bumpKey], by omega⟩

theorem zone_of_some (r : Int) :
    rssi_to_proximity_zone (some r) = "immediate" ∨
    rssi_to_proximity_zone (some r) = "near" ∨
    rssi_to_proximity_zone (some r) = "far" ∨
    rssi_to_proximity_zone (some r) = "remote" := by
  simp only [rssi_to_proximity_zone]
  split_ifs <;> simp

theorem zonesFold_shape (rs : List Int) :
    ∃ a b c d : Nat,
      zonesFold rs = [("immediate", a), ("near", b), ("far", c), ("remote", d)] ∧
      a + b + c + d = rs.length := by
  suffices h : ∀ (a b c d : Nat),
      ∃ a2 b2 c2 d2 : Nat,
        rs.foldl (fun z r => bumpKey (rssi_to_proximity_zone (some r)) z)
          [("immediate", a), ("near", b), ("far", c), ("remote", d)] =
          [("immediate", a2), ("near", b2), ("far", c2), ("remote", d2)] ∧
        a2 + b2 + c2 + d2 = a + b + c + d + rs.length by
    obtain ⟨a2, b2, c2, d2, h1, h2⟩ := h 0 0 0 0
    exact ⟨a2, b2, c2, d2, h1, by omega⟩
  induction rs with
  | nil => exact fun a b c d => ⟨a, b, c, d, rfl, by simp⟩
  | cons r rs ih =>
    intro a b c d
    obtain ⟨a1, b1, c1, d1, hb, hs⟩ := bumpKey_zone _ a b c d (zone_of_some r)
    obtain ⟨a2, b2, c2, d2, h1, h2⟩ := ih a1 b1 c1 d1
    refine ⟨a2, b2, c2, d2, ?_, ?_⟩
    · simp only [List.foldl_cons, hb, h1]
    · simp only [List.length_cons]
      omega

theorem round4_sum_bound (x1 x2 x3 x4 : ℚ) (h : x1 + x2 + x3 + x4 = 100) :
    |pyRound1 x1 + (pyRound1 x2 + (pyRound1 x3 + pyRound1 x4)) - 100| ≤ 1/5 := by
  have e1 := pyRound1_err x1
  have e2 := pyRound1_err x2
  have e3 := pyRound1_err x3
  have e4 := pyRound1_err x4
  rw [abs_le]
  constructor <;> [skip; skip] <;>
    rcases e1 with ⟨a1, b1⟩ <;> rcases e2 with ⟨a2, b2⟩ <;>
    rcases e3 with ⟨a3, b3⟩ <;> rcases e4 with ⟨a4, b4⟩ <;> linarith

/-! ## Helper lemmas about the sighting store -/

theorem upsert_sightings (c : UpsertCall) (db : StoreDB) :
    (upsertDB c db).sightings = db.sightings ++ [⟨c.mac, c.now, c.rssi⟩] := by
  unfold upsertDB
  split <;> rfl

theorem sCount_append (ss : List SightRec) (s : SightRec) (m : String) :
    sCount (ss ++ [s]) m = sCount ss m + (if s.mac = m then 1 else 0) := by
  unfold sCount
  rw [List.filter_append, List.length_append]
  congr 1
  by_cases h : s.mac = m <;> simp [List.filter_cons, h]

theorem listMaxI_append (l : List Int) (t : Int) (h : ∀ x ∈ l, x ≤ t) :
    listMaxI (l ++ [t]) = some t := by
  induction l with
  | nil => rfl
  | cons a l ih =>
    have ha : a ≤ t := h a (List.mem_cons_self a l)
    have ih2 := ih (fun x hx => h x (List.mem_cons_of_mem a hx))
    rw [List.cons_append, listMaxI, ih2]
    show some (max a t) = some t
    rw [max_eq_right ha]

theorem sMax_append_self (ss : List SightRec) (s : SightRec) (m : String)
    (hm : s.mac = m) (h : ∀ x ∈ ss, x.ts ≤ s.ts) :
    sMax (ss ++ [s]) m = some s.ts := by
  unfold sMax
  rw [List.filter_append]
  have hs : List.filter (fun x => x.mac == m) [s] = [s] := by
    simp [List.filter_cons, hm]
  rw [hs, List.map_append]
  simp only [List.map_cons, List.map_nil]
  apply listMaxI_append
  intro x hx
  rw [List.mem_map] at hx
  obtain ⟨y, hy, rfl⟩ := hx
  exact h y (List.mem_of_mem_filter hy)

theorem sCount_append_other (ss : List SightRec) (s : SightRec) (m : String)
    (hm : ¬ s.mac = m) : sCount (ss ++ [s]) m = sCount ss m := by
  rw [sCount_append, if_neg hm, Nat.add_zero]

theorem sMax_append_other (ss : List SightRec) (s : SightRec) (m : String)
    (hm : ¬ s.mac = m) : sMax (ss ++ [s]) m = sMax ss m := by
  unfold sMax
  rw [List.filter_append]
  have hs : List.filter (fun x => x.mac == m) [s] = [] := by
    simp [List.filter_cons, hm]
  rw [hs, List.append_nil]

theorem upsert_step (c : UpsertCall) (db : StoreDB)
    (h1 : rollupInv db) (h2 : macsCovered db)
    (h3 : ∀ s ∈ db.sightings, s.ts ≤ c.now) :
    rollupInv (upsertDB c db) ∧ macsCovered (upsertDB c db) := by
  by_cases hex : db.devices.any (fun d => d.mac == c.mac) = true
  · have hdev : (upsertDB c db).devices =
        db.devices.map (fun d => if d.mac == c.mac then updateDev c d else d) := by
      unfold upsertDB
      rw [if_pos hex]
    have hsig := upsert_sightings c db
    constructor
    · intro d2 hd2
      rw [hdev, List.mem_map] at hd2
      obtain ⟨d, hd, rfl⟩ := hd2
      rw [hsig]
      by_cases hm : d.mac = c.mac
      · have hif : (if d.mac == c.mac then updateDev c d else d) = updateDev c d := by
          simp [hm]
        rw [hif]
        have hmac : (updateDev c d).mac = d.mac := rfl
        constructor
        · show (updateDev c d).total_sightings = _
          rw [show (updateDev c d).total_sightings = d.total_sightings + 1 from rfl,
            hmac, sCount_append, if_pos hm.symm, (h1 d hd).1]
        · show (updateDev c d).last_seen = _
          rw [hmac, sMax_append_self _ _ _ hm.symm h3]
          rfl
      · have hif : (if d.mac == c.mac then updateDev c d else d) = d := by
          simp [hm]
        rw [hif]
        have hne : ¬ (⟨c.mac, c.now, c.rssi⟩ : SightRec).mac = d.mac := fun h => hm h.symm
        rw [sCount_append_other _ _ _ hne, sMax_append_other _ _ _ hne]
        exact h1 d hd
    · intro s hs
      rw [hsig] at hs
      rw [hdev]
      rcases List.mem_append.mp hs with hold | hnew
      · obtain ⟨d, hd, hdm⟩ := h2 s hold
        refine ⟨(if d.mac == c.mac then updateDev c d else d),
          List.mem_map_of_mem _ hd, ?_⟩
        by_cases hm : d.mac = c.mac <;> simp [hm, updateDev] <;> [skip; exact hdm]
        rw [← hm]
        exact hdm
      · have hseq : s = ⟨c.mac, c.now, c.rssi⟩ := List.mem_singleton.mp hnew
        obtain ⟨d, hd, hdm⟩ := List.any_eq_true.mp hex
        refine ⟨(if d.mac == c.mac then updateDev c d else d),
          List.mem_map_of_mem _ hd, ?_⟩
        have hm : d.mac = c.mac := by simpa using hdm
        simp [hm, updateDev, hseq]
  · have hdev : (upsertDB c db).devices = db.devices ++ [newDev c] := by
      unfold upsertDB
      rw [if_neg hex]
    have hsig := upsert_sightings c db
    have hnone : ∀ d ∈ db.devices, ¬ d.mac = c.mac := by
      intro d hd hm
      exact hex (List.any_eq_true.mpr ⟨d, hd, by simpa using hm⟩)
    have hzero : sCount db.sightings c.mac = 0 := by
      unfold sCount
      rw [List.length_eq_zero]
      apply List.filter_eq_nil_iff.mpr
      intro s hsod hbeq
      obtain ⟨d, hd, hdm⟩ := h2 s hsod
      apply hnone d hd
      rw [hdm]
      simpa using hbeq
    constructor
    · intro d2 hd2
      rw [hdev] at hd2
      rw [hsig]
      rcases List.mem_append.mp hd2 with hold | hnew
      · have hne : ¬ (⟨c.mac, c.now, c.rssi⟩ : SightRec).mac = d2.mac :=
          fun h => hnone d2 hold h.symm
        rw [sCount_append_other _ _ _ hne, sMax_append_other _ _ _ hne]
        exact h1 d2 hold
      · have hd2e : d2 = newDev c := List.mem_singleton.mp hnew
        subst hd2e
        constructor
        · show (newDev c).total_sightings = _
          have hmac : (newDev c).mac = c.mac := rfl
          rw [hmac, sCount_append, if_pos rfl, hzero]
          rfl
        · show (newDev c).last_seen = _
          have hmac : (newDev c).mac = c.mac := rfl
          rw [hmac, sMax_append_self _ _ _ rfl h3]
          rfl
    · intro s hs
      rw [hsig] at hs
      rw [hdev]
      rcases List.mem_append.mp hs with hold | hnew
      · obtain ⟨d, hd, hdm⟩ := h2 s hold
        exact ⟨d, List.mem_append_left _ hd, hdm⟩
      · have hseq : s = ⟨c.mac, c.now, c.rssi⟩ := List.mem_singleton.mp hnew
        refine ⟨newDev c, List.mem_append_right _ (List.mem_singleton.mpr rfl), ?_⟩
        rw [hseq]
        rfl

/-! ## Helper lemmas evaluating the correlation pipeline on the example -/

theorem correlationScore_4_10 : correlationScore 4 10 = 40 := by
  unfold correlationScore
  rw [show ((4:ℕ):ℚ) / ((10:ℕ):ℚ) * 100 = ((40:ℤ):ℚ) by push_cast; norm_num,
    rhe_intCast]
  norm_num

theorem corrC4_eval :
    get_correlated_devices 10000 30 5 ("t1") ssC4 dsC4 = [rC4] := by
  have h1 : targetSightings 10000 30 ("t1") ssC4 =
      [0, 1000, 2000, 3000, 4000, 5000, 6000, 7000, 8000, 9000] := by decide
  have h2 : (sortCoDesc (corrCandidates 10000 30 5 ("t1") ssC4 dsC4)).take 20 =
      [("x1", ⟨"x1", none, none, none, false, 14⟩, 4)] := by decide
  simp [get_correlated_devices, h1, h2, correlationScore_4_10, rC4]

/-! ## Claim theorems -/

/-- Claim C1: sightings at minutes 0, 5, 10, 40, 45 with a 15-minute gap
threshold segment into the sessions [0,10] (duration 10 minutes) and
[40,45] (duration 5 minutes), with session_count 2, longest session 10
minutes, total 15 and average 7.5. Timestamps are in seconds. -/
theorem dwell_scenario_two_sessions :
    get_dwell_time 2700 30 15 [0, 300, 600, 2400, 2700] =
      ⟨15, 2, 15/2, 10, [⟨0, 600, 10⟩, ⟨2400, 2700, 5⟩]⟩ := by
  have hw : windowFilter 2700 30 [0, 300, 600, 2400, 2700] =
      [0, 300, 600, 2400, 2700] := by decide
  have hb : buildSessions (15 * 60) 0 0 [300, 600, 2400, 2700] =
      [(0, 600), (2400, 2700)] := by decide
  unfold get_dwell_time
  rw [hw]
  simp only [dwellFromRows, hb, List.map_cons, List.map_nil]
  rw [pyRound1_intMul (((600 - 0 : Int) : ℚ) / 60) 100 (by push_cast; norm_num)]
  rw [pyRound1_intMul (((2700 - 2400 : Int) : ℚ) / 60) 50 (by push_cast; norm_num)]
  norm_num [listMaxQ, List.isEmpty]
  refine ⟨?_, ?_, ?_⟩
  · rw [pyRound1_intMul 15 150 (by norm_num)]
    norm_num
  · rw [pyRound1_intMul (15/2) 75 (by norm_num)]
    norm_num
  · rw [pyRound1_intMul 10 100 (by norm_num)]
    norm_num

/-- Claim C2, counterexample: with the vendor input absent and the name
MacBook Pro, classify_device returns unknown, not laptop: the source
returns unknown whenever the vendor is falsy, before consulting the name. -/
theorem classify_no_vendor_macbook_unknown :
    classify_device none (some ("MacBook Pro")) = TYPE_UNKNOWN ∧
    TYPE_UNKNOWN ≠ TYPE_LAPTOP :=
  ⟨rfl, by decide⟩

/-- Claim C2, amended: the name-substring rules are applied only when a
vendor is present (non-empty) and matches no vendor pattern; an absent
vendor yields unknown regardless of the name, and a present non-matching
vendor with name MacBook Pro yields laptop. -/
theorem classify_name_rules_need_vendor :
    (∀ name, classify_device none name = TYPE_UNKNOWN) ∧
    (∀ v : String, ¬(v = "") → vendorMatch (strLower v) = none →
      classify_device (some v) (some ("MacBook Pro")) = TYPE_LAPTOP) := by
  constructor
  · intro name
    rfl
  · intro v hv hm
    unfold classify_device
    have ht : pyTruthyStr (some v) = true := by
      simp [pyTruthyStr, hv]
    rw [ht]
    simp only [Bool.not_true, Bool.false_eq_true, if_false, Option.getD_some]
    rw [hm]
    decide

theorem classify_name_rules_need_vendor_witness :
    classify_device none (some ("MacBook Pro")) = TYPE_UNKNOWN ∧
    classify_device (some ("zzz")) (some ("MacBook Pro")) = TYPE_LAPTOP :=
  ⟨classify_name_rules_need_vendor.1 (some ("MacBook Pro")),
   classify_name_rules_need_vendor.2 ("zzz") (by decide) (by decide)⟩

/-- Claim C3 (amended): the rollup invariant (total_sightings counts the
stored sighting rows and last_seen is their maximal timestamp) holds after
any sequence of record (upsert) operations, provided the store starts
well-formed (invariant holds and every sighting has a device row) and the
calls are chronological. cleanup_old_sightings is excluded: it deletes
sighting rows without adjusting the rollup. -/
theorem rollup_invariant_record_sequences :
    ∀ (cs : List UpsertCall) (db : StoreDB), rollupInv db → macsCovered db →
      (∀ s ∈ db.sightings, ∀ c ∈ cs, s.ts ≤ c.now) →
      cs.Pairwise (fun a b => a.now ≤ b.now) →
      rollupInv (applyCalls db cs) := by
  intro cs
  induction cs with
  | nil =>
    intro db h1 _ _ _
    simpa [applyCalls] using h1
  | cons c cs ih =>
    intro db h1 h2 h3 h4
    have hstep := upsert_step c db h1 h2
      (fun s hs => h3 s hs c (List.mem_cons_self c cs))
    have h3b : ∀ s ∈ (upsertDB c db).sightings, ∀ c2 ∈ cs, s.ts ≤ c2.now := by
      intro s hs c2 hc2
      rw [upsert_sightings] at hs
      rcases List.mem_append.mp hs with hold | hnew
      · exact h3 s hold c2 (List.mem_cons_of_mem c hc2)
      · rw [List.mem_singleton.mp hnew]
        exact List.rel_of_pairwise_cons h4 hc2
    have happ : applyCalls db (c :: cs) = applyCalls (upsertDB c db) cs := by
      simp [applyCalls]
    rw [happ]
    exact ih (upsertDB c db) hstep.1 hstep.2 h3b (List.Pairwise.of_cons h4)

theorem rollup_invariant_record_sequences_witness :
    rollupInv (applyCalls emptyStore csC3) :=
  rollup_invariant_record_sequences csC3 emptyStore (by decide) (by decide)
    (by decide) (by decide)

/-- Claim C3, counterexample: one record call at time 0 followed by
cleanup_old_sightings with a 1-day retention at time 172800 leaves a device
row with total_sightings 1 and last_seen 0 but no sighting rows, so the
claimed invariant is violated by an engine-operation sequence that includes
cleanup. -/
theorem rollup_invariant_cleanup_violation :
    ¬ rollupInv (cleanupDB 172800 1
      (upsertDB ⟨0, "aa", none, none, [], "ble", none⟩ emptyStore)) := by
  decide

/-- Claim C4: every correlation result is scored
`min(100, round(co / target_count * 100))`; for a positive target count the
score is within [0, 100] and monotone non-decreasing in the co-occurrence
count. -/
theorem correlation_score_formula (now days w : Int) (mac : String)
    (ss : List SightingRow) (ds : List DeviceRow) :
    (∀ r ∈ get_correlated_devices now days w mac ss ds,
      r.correlation_score =
        correlationScore r.co_occurrences (targetSightings now days mac ss).length) ∧
    (∀ co t : Nat, 0 < t → 0 ≤ correlationScore co t ∧ correlationScore co t ≤ 100) ∧
    (∀ co1 co2 t : Nat, 0 < t → co1 ≤ co2 →
      correlationScore co1 t ≤ correlationScore co2 t) := by
  refine ⟨?_, ?_, ?_⟩
  · intro r hr
    simp only [get_correlated_devices] at hr
    split at hr
    · exact absurd hr (List.not_mem_nil r)
    · obtain ⟨x, hx, rfl⟩ := List.mem_map.mp hr
      rfl
  · intro co t ht
    constructor
    · apply le_min (by norm_num)
      apply rhe_nonneg
      positivity
    · exact min_le_left _ _
  · intro co1 co2 t ht h
    apply min_le_min (le_refl _)
    apply rhe_mono
    have hc : (co1 : ℚ) ≤ (co2 : ℚ) := by exact_mod_cast h
    have ht2 : (0 : ℚ) < (t : ℚ) := by exact_mod_cast ht
    gcongr

theorem correlation_score_formula_witness :
    rC4.correlation_score =
      correlationScore rC4.co_occurrences (targetSightings 10000 30 ("t1") ssC4).length ∧
    (0 ≤ correlationScore 4 10 ∧ correlationScore 4 10 ≤ 100) ∧
    correlationScore 3 10 ≤ correlationScore 4 10 :=
  ⟨(correlation_score_formula 10000 30 5 ("t1") ssC4 dsC4).1 rC4
      (by rw [corrC4_eval]; exact List.mem_singleton.mpr rfl),
   (correlation_score_formula 10000 30 5 ("t1") ssC4 dsC4).2.1 4 10 (by decide),
   (correlation_score_formula 10000 30 5 ("t1") ssC4 dsC4).2.2 3 4 10 (by decide)
     (by decide)⟩

/-- Claim C5: insufficient data is never an error: an empty filtered
sighting sequence yields the all-zero dwell record with an empty session
list, and a target with no sightings in the window yields an empty
correlation list. Both embedded functions are total, so no exception path
exists. -/
theorem insufficient_data_empty_results :
    (∀ now days gap : Int, ∀ ts : List Int, windowFilter now days ts = [] →
      get_dwell_time now days gap ts = emptyDwell) ∧
    (∀ now days w : Int, ∀ mac : String, ∀ ss : List SightingRow,
      ∀ ds : List DeviceRow, targetSightings now days mac ss = [] →
      get_correlated_devices now days w mac ss ds = []) := by
  constructor
  · intro now days gap ts h
    unfold get_dwell_time
    rw [h]
    rfl
  · intro now days w mac ss ds h
    unfold get_correlated_devices
    rw [h]
    rfl

theorem insufficient_data_empty_results_witness :
    get_dwell_time 0 30 15 [] = emptyDwell ∧
    get_correlated_devices 0 30 5 ("aa") [] [] = [] :=
  ⟨insufficient_data_empty_results.1 0 30 15 [] (by rfl),
   insufficient_data_empty_results.2 0 30 5 ("aa") [] [] (by rfl)⟩

/-- Claim C6, counterexample: Python truthiness treats the empty string as
falsy, so a stored vendor that is the empty string (non-null) is
overwritten by a later record call carrying a different vendor. -/
theorem vendor_empty_string_overwritten :
    ((upsertDB cEmptyVendor emptyStore).devices.map (fun d => d.vendor) =
      [some ("")]) ∧
    ((upsertDB cAcme (upsertDB cEmptyVendor emptyStore)).devices.map
      (fun d => d.vendor) = [some ("Acme")]) ∧
    some ("") ≠ (none : Option String) := by
  refine ⟨by decide, by decide, by decide⟩

/-- Claim C6, amended: a record call on an already-existing device updates
the rollup in place (no row is added or removed), never touches first_seen,
and leaves the vendor unchanged whenever the stored vendor is truthy
(non-null and non-empty) even when the call supplies a different vendor. -/
theorem upsert_existing_frame (c : UpsertCall) (db : StoreDB)
    (hex : db.devices.any (fun d => d.mac == c.mac) = true) :
    ((upsertDB c db).devices =
      db.devices.map (fun d => if d.mac == c.mac then updateDev c d else d)) ∧
    ((upsertDB c db).devices.map (fun d => d.first_seen) =
      db.devices.map (fun d => d.first_seen)) ∧
    (∀ d ∈ db.devices, pyTruthyStr d.vendor = true →
      (updateDev c d).vendor = d.vendor) := by
  have hdev : (upsertDB c db).devices =
      db.devices.map (fun d => if d.mac == c.mac then updateDev c d else d) := by
    unfold upsertDB
    rw [if_pos hex]
  refine ⟨hdev, ?_, ?_⟩
  · rw [hdev, List.map_map]
    apply List.map_congr_left
    intro d hd
    by_cases hm : d.mac = c.mac
    · simp [hm, updateDev]
    · simp [hm]
  · intro d hd hv
    unfold updateDev
    simp [hv]

theorem upsert_existing_frame_witness :
    ((upsertDB cC6 dbC6).devices.map (fun d => d.first_seen) =
      dbC6.devices.map (fun d => d.first_seen)) ∧
    (updateDev cC6 devC6).vendor = devC6.vendor :=
  ⟨(upsert_existing_frame cC6 dbC6 (by decide)).2.1,
   (upsert_existing_frame cC6 dbC6 (by decide)).2.2 devC6 (by decide) (by decide)⟩

/-- Claim C7 (amended bound): the zone counts sum to total_readings, and
for a positive total the one-decimal zone percentages sum to 100 within a
tolerance of 0.2 (each of the four roundings moves its term by at most
0.05). -/
theorem proximity_counts_and_percent (rows : List (Option Int)) :
    ((get_proximity_stats rows).zones.map (fun p => p.2)).sum =
      (get_proximity_stats rows).total_readings ∧
    (0 < (get_proximity_stats rows).total_readings →
      |((get_proximity_stats rows).zones_percent.map (fun p => p.2)).sum - 100| ≤
        1/5) := by
  obtain ⟨a, b, c, d, h1, h2⟩ := zonesFold_shape (rows.filterMap id)
  constructor
  · rfl
  · intro hpos
    have hT : 0 < a + b + c + d := by
      simp only [get_proximity_stats, h1, List.map_cons, List.map_nil,
        List.sum_cons, List.sum_nil] at hpos
      omega
    simp only [get_proximity_stats, h1, List.map_cons, List.map_nil,
      List.sum_cons, List.sum_nil, Nat.add_zero, add_zero]
    rw [if_pos (by omega : 0 < a + (b + (c + d)))]
    simp only [List.map_cons, List.map_nil, List.sum_cons, List.sum_nil, add_zero]
    apply round4_sum_bound
    have hS : ((a : ℚ) + b + c + d) ≠ 0 := by
      have hQ : (0 : ℚ) < (a : ℚ) + b + c + d := by
        have : (0 : ℚ) < ((a + b + c + d : ℕ) : ℚ) := by exact_mod_cast hT
        push_cast at this
        linarith
      linarith
    have key : ((a : ℚ) + b + c + d) * ((a : ℚ) + b + c + d)⁻¹ = 1 :=
      mul_inv_cancel₀ hS
    push_cast
    field_simp
    linear_combination (100 : ℚ) * key

theorem proximity_counts_and_percent_witness :
    ((get_proximity_stats [some (-45)]).zones.map (fun p => p.2)).sum =
      (get_proximity_stats [some (-45)]).total_readings ∧
    |((get_proximity_stats [some (-45)]).zones_percent.map (fun p => p.2)).sum -
      100| ≤ 1/5 :=
  ⟨(proximity_counts_and_percent [some (-45)]).1,
   (proximity_counts_and_percent [some (-45)]).2 (by decide)⟩

/-- Claim C7, counterexample: for one immediate, one near, one far and
thirteen remote readings the exact percentages are 6.25, 6.25, 6.25, 81.25;
Python rounds every one of them down to one decimal (ties to the even
tenth), the reported percentages are 6.2, 6.2, 6.2, 81.2, and their sum
99.8 misses 100 by 0.2, violating the claimed 0.1 tolerance. -/
theorem proximity_percent_tolerance_violated :
    ¬ (|((get_proximity_stats rowsC7).zones_percent.map (fun p => p.2)).sum - 100| ≤
        1/10) := by
  have hz : zonesFold (rowsC7.filterMap id) =
      [("immediate", 1), ("near", 1), ("far", 1), ("remote", 13)] := by decide
  simp only [get_proximity_stats, hz, List.map_cons, List.map_nil,
    List.sum_cons, List.sum_nil, Nat.add_zero, add_zero]
  rw [if_pos (by norm_num : (0:ℕ) < 1 + (1 + (1 + 13)))]
  simp only [List.map_cons, List.map_nil, List.sum_cons, List.sum_nil, add_zero]
  rw [pyRound1_tie_even _ 62 (by decide) (by push_cast; norm_num)]
  rw [pyRound1_tie_even _ 812 (by decide) (by push_cast; norm_num)]
  intro habs
  rw [abs_le] at habs
  rcases habs with ⟨hlo, hhi⟩
  norm_num at hlo

/-- Claim C8, counterexample: a negative (or zero) lookback window on the
dwell endpoint is not rejected with an error: the handler returns the
ordinary empty dwell statistics. -/
theorem dwell_window_negative_not_rejected :
    api_device_dwell 1000 (-1) 15 [500] = Except.ok emptyDwell ∧
    api_device_dwell 1000 0 15 [500] = Except.ok emptyDwell :=
  ⟨rfl, rfl⟩

/-- Claim C8, amended: a non-positive lookback window is silently absorbed:
the window filter matches no stored sighting (negative windows make the
SQLite datetime modifier malformed, zero windows exclude everything at or
before now) and the endpoint answers with the empty dwell statistics
instead of an error. -/
theorem dwell_window_nonpositive_empty (now gap : Int) (ts : List Int)
    (days : Int) (h1 : days ≤ 0) (h2 : ∀ t ∈ ts, t ≤ now) :
    api_device_dwell now days gap ts = Except.ok emptyDwell := by
  unfold api_device_dwell get_dwell_time
  have hw : windowFilter now days ts = [] := by
    unfold windowFilter
    rcases lt_or_eq_of_le h1 with hlt | heq
    · rw [if_pos hlt]
    · rw [if_neg (by omega)]
      apply List.filter_eq_nil_iff.mpr
      intro t ht
      have := h2 t ht
      simp only [decide_eq_true_eq]
      omega
  rw [hw]
  rfl

theorem dwell_window_nonpositive_empty_witness :
    (-1 : Int) ≤ 0 ∧ api_device_dwell 1000 (-1) 15 [500] = Except.ok emptyDwell :=
  ⟨by decide, dwell_window_nonpositive_empty 1000 15 [500] (-1) (by decide)
    (by decide)⟩

/-- Claim C9: for every hourly and daily distribution, a total sighting
count below 5 makes the pattern summarizer return exactly the insufficient
data descriptor, skipping all further analysis. -/
theorem pattern_insufficient_data (hourly daily : List (Nat × Nat))
    (c : Nat) (h : c < 5) :
    analyze_pattern hourly daily c = "Insufficient data" := by
  unfold analyze_pattern
  rw [if_pos h]

theorem pattern_insufficient_data_witness :
    3 < 5 ∧ analyze_pattern [(9, 2)] [(0, 3)] 3 = "Insufficient data" :=
  ⟨by decide, pattern_insufficient_data [(9, 2)] [(0, 3)] 3 (by decide)⟩

/-- Claim C10: the proximity aggregate counts exactly the non-null readings
in the window and its zone dictionary has exactly the four keys immediate,
near, far, remote (no unknown bucket). -/
theorem proximity_nonnull_and_keys (rows : List (Option Int)) :
    (get_proximity_stats rows).total_readings = (rows.filterMap id).length ∧
    (get_proximity_stats rows).zones.map (fun p => p.1) =
      ["immediate", "near", "far", "remote"] := by
  obtain ⟨a, b, c, d, h1, h2⟩ := zonesFold_shape (rows.filterMap id)
  constructor
  · simp only [get_proximity_stats, h1, List.map_cons, List.map_nil,
      List.sum_cons, List.sum_nil]
    omega
  · simp only [get_proximity_stats, h1, List.map_cons, List.map_nil]

end Bluehood
